import Mathlib

/-!
Shallow embedding of the banking domain of `src/models.py` and
`src/services.py`.

Modelling conventions:
* Python `float` amounts and balances are modelled as exact rationals `ℚ`
  (the claims under study concern control flow and arithmetic relations,
  not floating-point rounding).
* Python objects live in the in-memory store `Database._store['accounts']`,
  a dict keyed by `account_id`; we model that heap as a function
  `Nat → Option Account` and model an object *reference* held by a
  `Transaction` as the store key (`Option Nat`, `none` being Python `None`).
  All account objects reachable in the orchestrated scenarios are reachable
  through this store, and `account_id` is never mutated, so mutating the
  store entry at a key is exactly mutating the Python object; aliasing
  (e.g. a self-transfer, where source and destination are the same object)
  is the statement that the two references are the same key.
* Python exceptions are modelled with `Except Err`: `ValueError('Amount
  must be positive')` is `Err.invalidAmount`, `ValueError('Insufficient
  funds')` is `Err.insufficientFunds`, and the `AttributeError` raised by
  dereferencing `None` (or a dangling key) is `Err.attributeError`.
  A `try/except` is a `match` on the `Except` value; the state at
  the moment the exception was caught is threaded explicitly.
* `NotificationService.notify` prints; we model the emitted messages as a
  list of events `(recipient owner id, Msg)` returned by `transfer`,
  in emission order.
* `User` back-references are modelled by the owning user's id
  (`Account.ownerId`); `User.accounts` lists and `list_accounts` are not
  needed by any claim and are omitted.
-/

namespace Banking

/-- Transaction status constants of `models.Transaction`. -/
inductive Status where
  | PENDING
  | COMPLETED
  | FAILED
deriving DecidableEq, Repr

/-- Python exceptions that the modelled code can raise. -/
inductive Err where
  | invalidAmount
  | insufficientFunds
  | attributeError
deriving DecidableEq, Repr

/-- `models.Account`: id, owning user (by id), balance, and the
transaction history `_transactions` (by transaction id, append order). -/
structure Account where
  accountId : Nat
  ownerId : Nat
  balance : ℚ
  txs : List Nat
deriving DecidableEq, Repr

/-- `Account.__init__(account_id, owner, balance)`: stores the fields
verbatim with an empty history.  No validation of `balance` is performed. -/
def mkAccount (accountId ownerId : Nat) (balance : ℚ) : Account :=
  { accountId := accountId, ownerId := ownerId, balance := balance, txs := [] }

/-- `Account.deposit`: raises `InvalidAmount` when `amount <= 0`, else
adds `amount` to the balance. -/
def Account.deposit (a : Account) (amount : ℚ) : Except Err Account :=
  if amount ≤ 0 then .error .invalidAmount
  else .ok { a with balance := a.balance + amount }

/-- `Account.withdraw`: raises `InvalidAmount` when `amount <= 0`,
`InsufficientFunds` when `amount > balance`, else subtracts `amount`. -/
def Account.withdraw (a : Account) (amount : ℚ) : Except Err Account :=
  if amount ≤ 0 then .error .invalidAmount
  else if amount > a.balance then .error .insufficientFunds
  else .ok { a with balance := a.balance - amount }

/-- `Account.add_transaction`: appends the transaction to `_transactions`. -/
def Account.add_transaction (a : Account) (txId : Nat) : Account :=
  { a with txs := a.txs ++ [txId] }

/-- The account heap: `Database._store['accounts']` (and, identically, the
set of live `Account` objects, referenced by their store key). -/
abbrev Accounts := Nat → Option Account

/-- Store an account object at a key (dict assignment / object mutation). -/
def setAccount (s : Accounts) (id : Nat) (a : Account) : Accounts :=
  fun i => if i = id then some a else s i

/-- `models.Transaction`: id, the two account references (store keys,
`none` = Python `None`), amount, status. -/
structure Transaction where
  txId : Nat
  source : Option Nat
  destination : Option Nat
  amount : ℚ
  status : Status
deriving DecidableEq, Repr

/-- `Transaction.__init__`: fields stored verbatim, status `PENDING`.
It never dereferences `source`/`destination`, so it succeeds even when a
reference is `None`. -/
def mkTransaction (txId : Nat) (source destination : Option Nat) (amount : ℚ) :
    Transaction :=
  { txId := txId, source := source, destination := destination,
    amount := amount, status := .PENDING }

/-- Dereference an account reference (`None` or a dangling key raises
`AttributeError`, as attribute access on `None` does in Python). -/
def deref (s : Accounts) (ref : Option Nat) : Except Err (Nat × Account) :=
  match ref with
  | none => .error .attributeError
  | some id =>
    match s id with
    | none => .error .attributeError
    | some a => .ok (id, a)

/-- `ref.withdraw(amount)` on the heap: dereference, withdraw, store back. -/
def heapWithdraw (s : Accounts) (ref : Option Nat) (amount : ℚ) :
    Except Err Accounts :=
  match deref s ref with
  | .error e => .error e
  | .ok (id, a) =>
    match a.withdraw amount with
    | .error e => .error e
    | .ok a' => .ok (setAccount s id a')

/-- `ref.deposit(amount)` on the heap: dereference, deposit, store back. -/
def heapDeposit (s : Accounts) (ref : Option Nat) (amount : ℚ) :
    Except Err Accounts :=
  match deref s ref with
  | .error e => .error e
  | .ok (id, a) =>
    match a.deposit amount with
    | .error e => .error e
    | .ok a' => .ok (setAccount s id a')

/-- `ref.add_transaction(tx)` on the heap. -/
def heapAddTx (s : Accounts) (ref : Option Nat) (txId : Nat) :
    Except Err Accounts :=
  match deref s ref with
  | .error e => .error e
  | .ok (id, a) => .ok (setAccount s id (a.add_transaction txId))

/-- `Transaction.validate`: `self.amount > 0 and
self.source.get_balance() >= self.amount`.  Python `and` short-circuits:
when `amount <= 0` the source reference is never dereferenced, so a `None`
source yields `False` rather than an `AttributeError`. -/
def Transaction.validate (s : Accounts) (tx : Transaction) : Except Err Bool :=
  if tx.amount ≤ 0 then .ok false
  else
    match deref s tx.source with
    | .error e => .error e
    | .ok (_, a) => .ok (decide (a.balance ≥ tx.amount))

/-- `Transaction.process`.  `validate()` is called *outside* the
`try`, so an exception it raises propagates (`.error`).  Inside the `try`
each step's exception is caught, setting `FAILED` and returning `False`
with the heap exactly as it was at the moment of the exception — the code
performs no rollback, so a caught failure after a successful withdrawal
leaves the withdrawal applied. -/
def Transaction.process (s : Accounts) (tx : Transaction) :
    Except Err (Bool × Transaction × Accounts) :=
  match tx.validate s with
  | .error e => .error e
  | .ok false => .ok (false, { tx with status := .FAILED }, s)
  | .ok true =>
    match heapWithdraw s tx.source tx.amount with
    | .error _ => .ok (false, { tx with status := .FAILED }, s)
    | .ok s1 =>
      match heapDeposit s1 tx.destination tx.amount with
      | .error _ => .ok (false, { tx with status := .FAILED }, s1)
      | .ok s2 =>
        match heapAddTx s2 tx.source tx.txId with
        | .error _ => .ok (false, { tx with status := .FAILED }, s2)
        | .ok s3 =>
          match heapAddTx s3 tx.destination tx.txId with
          | .error _ => .ok (false, { tx with status := .FAILED }, s3)
          | .ok s4 =>
            .ok (true, { tx with status := .COMPLETED }, s4)

/-- A notification message, as far as its content goes: the f-strings of
`BankingService.transfer` carry the amount and the other account's id. -/
inductive Msg where
  | transferSucceeded (amount : ℚ) (destAccountId : Nat)
  | receivedFunds (amount : ℚ) (sourceAccountId : Nat)
  | transferFailed (amount : ℚ)
deriving DecidableEq, Repr

/-- The state owned by `Database` and `BankingService`: the account heap,
the persisted-transaction store, and the orchestrator's `_next_tx_id`. -/
structure Bank where
  accounts : Accounts
  transactions : Nat → Option Transaction
  nextTxId : Nat

/-- `Database.save_account`: upsert keyed by `account.account_id`. -/
def Bank.saveAccount (b : Bank) (a : Account) : Bank :=
  { b with accounts := setAccount b.accounts a.accountId a }

/-- `Database.save_transaction`: upsert keyed by `tx.tx_id`. -/
def Bank.saveTransaction (b : Bank) (tx : Transaction) : Bank :=
  { b with transactions := fun i => if i = tx.txId then some tx else b.transactions i }

/-- A fresh `BankingService` over an empty `Database`
(`_next_tx_id = 1`). -/
def Bank.init : Bank :=
  { accounts := fun _ => none, transactions := fun _ => none, nextTxId := 1 }

/-- Line 63 of `services.py`: the `Transaction` constructed by a
`transfer` call — id `_next_tx_id`, the two references just fetched from
the store (`None` when absent), status `PENDING`. -/
def mkTransferTx (b : Bank) (srcId destId : Nat) (amount : ℚ) : Transaction :=
  mkTransaction b.nextTxId ((b.accounts srcId).map fun _ => srcId)
    ((b.accounts destId).map fun _ => destId) amount

/-- `BankingService.transfer`.  Returns the Python return value (the
transaction, or the exception that propagated) together with the emitted
notifications, and the state as it stands when control returns — note the
id counter is incremented *before* `process()` runs, so a propagating
exception still leaves it incremented, and the transaction is persisted
*before* the notifications, so a `FAILED` transaction with an absent
source is persisted and only then does `notify` raise. -/
def Bank.transfer (b : Bank) (srcId destId : Nat) (amount : ℚ) :
    Except Err (Transaction × List (Nat × Msg)) × Bank :=
  let source := b.accounts srcId
  let dest := b.accounts destId
  let tx0 := mkTransferTx b srcId destId amount
  let b1 := { b with nextTxId := b.nextTxId + 1 }
  match tx0.process b1.accounts with
  | .error e => (.error e, b1)
  | .ok (success, tx, accts) =>
    let b2 := { b1 with accounts := accts }.saveTransaction tx
    if success then
      match source, dest with
      | some sa, some da =>
        (.ok (tx, [(sa.ownerId, .transferSucceeded amount da.accountId),
                   (da.ownerId, .receivedFunds amount sa.accountId)]), b2)
      | _, _ => (.error .attributeError, b2)
    else
      match source with
      | some sa => (.ok (tx, [(sa.ownerId, .transferFailed amount)]), b2)
      | none => (.error .attributeError, b2)

/-- The bank seeded by `main.seed_data`: Alice (user 1) owns accounts
101 (balance 500) and 102 (balance 150); Bob (user 2) owns account 201
(balance 300). -/
def demoBank : Bank :=
  ((Bank.init.saveAccount (mkAccount 101 1 500)).saveAccount
    (mkAccount 102 1 150)).saveAccount (mkAccount 201 2 300)

/-- Balances are everywhere non-negative on the account heap. -/
def NonNeg (s : Accounts) : Prop :=
  ∀ id a, s id = some a → 0 ≤ a.balance

/-- The operations available at the public interface. -/
inductive Op where
  | createAccount (accountId ownerId : Nat) (initialBalance : ℚ)
  | deposit (accountId : Nat) (amount : ℚ)
  | withdraw (accountId : Nat) (amount : ℚ)
  | processTx (tx : Transaction)
  | transferOp (srcId destId : Nat) (amount : ℚ)

/-- Run one public-interface operation against the bank, keeping the state
reached when control returns to the caller (an uncaught exception from
`deposit`/`withdraw`/`process` leaves the state it had at raise time). -/
def applyOp (b : Bank) : Op → Bank
  | .createAccount id oid bal => b.saveAccount (mkAccount id oid bal)
  | .deposit id amt =>
    match b.accounts id with
    | none => b
    | some a =>
      match a.deposit amt with
      | .ok a' => { b with accounts := setAccount b.accounts id a' }
      | .error _ => b
  | .withdraw id amt =>
    match b.accounts id with
    | none => b
    | some a =>
      match a.withdraw amt with
      | .ok a' => { b with accounts := setAccount b.accounts id a' }
      | .error _ => b
  | .processTx tx =>
    match tx.process b.accounts with
    | .ok (_, _, s') => { b with accounts := s' }
    | .error _ => b
  | .transferOp s d amt => (b.transfer s d amt).2

/-- An account-creation operation carries a non-negative initial balance
(other operations are unrestricted). -/
def Op.createNonNeg : Op → Prop
  | .createAccount _ _ bal => 0 ≤ bal
  | _ => True

instance : DecidablePred Op.createNonNeg := fun op =>
  match op with
  | .createAccount _ _ bal => inferInstanceAs (Decidable (0 ≤ bal))
  | .deposit _ _ => .isTrue trivial
  | .withdraw _ _ => .isTrue trivial
  | .processTx _ => .isTrue trivial
  | .transferOp _ _ _ => .isTrue trivial

lemma setAccount_self (s : Accounts) (id : Nat) (a : Account) :
    setAccount s id a id = some a := by
  simp [setAccount]

lemma setAccount_ne (s : Accounts) (id i : Nat) (a : Account) (h : i ≠ id) :
    setAccount s id a i = s i := by
  simp [setAccount, h]


lemma deref_some {s : Accounts} {id : Nat} {a : Account} (h : s id = some a) :
    deref s (some id) = .ok (id, a) := by
  simp [deref, h]

lemma withdraw_ok_iff {a a' : Account} {amt : ℚ} :
    a.withdraw amt = .ok a' ↔
      0 < amt ∧ amt ≤ a.balance ∧ a' = { a with balance := a.balance - amt } := by
  unfold Account.withdraw
  by_cases h1 : amt ≤ 0
  · rw [if_pos h1]
    constructor
    · intro h; exact Except.noConfusion h
    · rintro ⟨h, -, -⟩; exact absurd h (not_lt.mpr h1)
  · rw [if_neg h1]
    by_cases h2 : amt > a.balance
    · rw [if_pos h2]
      constructor
      · intro h; exact Except.noConfusion h
      · rintro ⟨-, h, -⟩; exact absurd h (not_le.mpr h2)
    · rw [if_neg h2]
      constructor
      · intro h
        injection h with h
        exact ⟨not_le.mp h1, not_lt.mp h2, h.symm⟩
      · rintro ⟨-, -, h⟩
        rw [h]

lemma deposit_ok_iff {a a' : Account} {amt : ℚ} :
    a.deposit amt = .ok a' ↔
      0 < amt ∧ a' = { a with balance := a.balance + amt } := by
  unfold Account.deposit
  by_cases h1 : amt ≤ 0
  · rw [if_pos h1]
    constructor
    · intro h; exact Except.noConfusion h
    · rintro ⟨h, -⟩; exact absurd h (not_lt.mpr h1)
  · rw [if_neg h1]
    constructor
    · intro h
      injection h with h
      exact ⟨not_le.mp h1, h.symm⟩
    · rintro ⟨-, h⟩
      rw [h]

lemma withdraw_ok {a : Account} {amt : ℚ} (h1 : 0 < amt) (h2 : amt ≤ a.balance) :
    a.withdraw amt = .ok { a with balance := a.balance - amt } :=
  withdraw_ok_iff.mpr ⟨h1, h2, rfl⟩

lemma deposit_ok {a : Account} {amt : ℚ} (h1 : 0 < amt) :
    a.deposit amt = .ok { a with balance := a.balance + amt } :=
  deposit_ok_iff.mpr ⟨h1, rfl⟩

lemma heapWithdraw_ok_inv {s s' : Accounts} {ref : Option Nat} {amt : ℚ}
    (h : heapWithdraw s ref amt = .ok s') :
    ∃ id a a', s id = some a ∧ a.withdraw amt = .ok a' ∧
      s' = setAccount s id a' := by
  cases ref with
  | none => simp [heapWithdraw, deref] at h
  | some id =>
    cases hsa : s id with
    | none => simp [heapWithdraw, deref, hsa] at h
    | some a =>
      simp only [heapWithdraw, deref_some hsa] at h
      cases hw : a.withdraw amt with
      | error e => simp [hw] at h
      | ok a' =>
        simp only [hw, Except.ok.injEq] at h
        exact ⟨id, a, a', hsa, hw, h.symm⟩

lemma heapDeposit_ok_inv {s s' : Accounts} {ref : Option Nat} {amt : ℚ}
    (h : heapDeposit s ref amt = .ok s') :
    ∃ id a a', s id = some a ∧ a.deposit amt = .ok a' ∧
      s' = setAccount s id a' := by
  cases ref with
  | none => simp [heapDeposit, deref] at h
  | some id =>
    cases hsa : s id with
    | none => simp [heapDeposit, deref, hsa] at h
    | some a =>
      simp only [heapDeposit, deref_some hsa] at h
      cases hw : a.deposit amt with
      | error e => simp [hw] at h
      | ok a' =>
        simp only [hw, Except.ok.injEq] at h
        exact ⟨id, a, a', hsa, hw, h.symm⟩

lemma heapAddTx_ok_inv {s s' : Accounts} {ref : Option Nat} {txId : Nat}
    (h : heapAddTx s ref txId = .ok s') :
    ∃ id a, s id = some a ∧ s' = setAccount s id (a.add_transaction txId) := by
  cases ref with
  | none => simp [heapAddTx, deref] at h
  | some id =>
    cases hsa : s id with
    | none => simp [heapAddTx, deref, hsa] at h
    | some a =>
      simp only [heapAddTx, deref_some hsa, Except.ok.injEq] at h
      exact ⟨id, a, hsa, h.symm⟩

lemma nonneg_setAccount {s : Accounts} {a : Account} {id : Nat}
    (hs : NonNeg s) (ha : 0 ≤ a.balance) : NonNeg (setAccount s id a) := by
  intro i x hx
  unfold setAccount at hx
  by_cases hi : i = id
  · rw [if_pos hi] at hx
    injection hx with hx
    rw [← hx]
    exact ha
  · rw [if_neg hi] at hx
    exact hs i x hx

lemma nonneg_heapWithdraw {s s' : Accounts} {ref : Option Nat} {amt : ℚ}
    (hs : NonNeg s) (h : heapWithdraw s ref amt = .ok s') : NonNeg s' := by
  obtain ⟨id, a, a', hsa, hw, rfl⟩ := heapWithdraw_ok_inv h
  obtain ⟨-, hba, rfl⟩ := withdraw_ok_iff.mp hw
  exact nonneg_setAccount hs (by simp only; linarith)

lemma nonneg_heapDeposit {s s' : Accounts} {ref : Option Nat} {amt : ℚ}
    (hs : NonNeg s) (h : heapDeposit s ref amt = .ok s') : NonNeg s' := by
  obtain ⟨id, a, a', hsa, hw, rfl⟩ := heapDeposit_ok_inv h
  obtain ⟨hpos, rfl⟩ := deposit_ok_iff.mp hw
  have h0 : 0 ≤ a.balance := hs id a hsa
  exact nonneg_setAccount hs (by simp only; linarith)

lemma nonneg_heapAddTx {s s' : Accounts} {ref : Option Nat} {txId : Nat}
    (hs : NonNeg s) (h : heapAddTx s ref txId = .ok s') : NonNeg s' := by
  obtain ⟨id, a, hsa, rfl⟩ := heapAddTx_ok_inv h
  exact nonneg_setAccount hs (hs id a hsa)

lemma nonneg_process {s s' : Accounts} {tx tx' : Transaction} {r : Bool}
    (hs : NonNeg s) (h : tx.process s = .ok (r, tx', s')) : NonNeg s' := by
  unfold Transaction.process at h
  cases hv : tx.validate s with
  | error e =>
    rw [hv] at h
    exact Except.noConfusion h
  | ok v =>
    cases v with
    | false =>
      simp only [hv, Except.ok.injEq, Prod.mk.injEq] at h
      obtain ⟨-, -, rfl⟩ := h
      exact hs
    | true =>
      simp only [hv] at h
      cases hw : heapWithdraw s tx.source tx.amount with
      | error e =>
        simp only [hw, Except.ok.injEq, Prod.mk.injEq] at h
        obtain ⟨-, -, rfl⟩ := h
        exact hs
      | ok s1 =>
        simp only [hw] at h
        have hs1 : NonNeg s1 := nonneg_heapWithdraw hs hw
        cases hd : heapDeposit s1 tx.destination tx.amount with
        | error e =>
          simp only [hd, Except.ok.injEq, Prod.mk.injEq] at h
          obtain ⟨-, -, rfl⟩ := h
          exact hs1
        | ok s2 =>
          simp only [hd] at h
          have hs2 : NonNeg s2 := nonneg_heapDeposit hs1 hd
          cases ha1 : heapAddTx s2 tx.source tx.txId with
          | error e =>
            simp only [ha1, Except.ok.injEq, Prod.mk.injEq] at h
            obtain ⟨-, -, rfl⟩ := h
            exact hs2
          | ok s3 =>
            simp only [ha1] at h
            have hs3 : NonNeg s3 := nonneg_heapAddTx hs2 ha1
            cases ha2 : heapAddTx s3 tx.destination tx.txId with
            | error e =>
              simp only [ha2, Except.ok.injEq, Prod.mk.injEq] at h
              obtain ⟨-, -, rfl⟩ := h
              exact hs3
            | ok s4 =>
              simp only [ha2, Except.ok.injEq, Prod.mk.injEq] at h
              obtain ⟨-, -, rfl⟩ := h
              exact nonneg_heapAddTx hs3 ha2

lemma nonneg_transfer {b : Bank} {srcId destId : Nat} {amt : ℚ}
    (hs : NonNeg b.accounts) :
    NonNeg ((b.transfer srcId destId amt).2).accounts := by
  cases hp : (mkTransferTx b srcId destId amt).process b.accounts with
  | error e =>
    simp only [Bank.transfer, hp]
    exact hs
  | ok r =>
    obtain ⟨succ, tx', s'⟩ := r
    have hs' : NonNeg s' := nonneg_process hs hp
    cases succ with
    | false =>
      simp only [Bank.transfer, hp, Bank.saveTransaction]
      cases b.accounts srcId <;> exact hs'
    | true =>
      simp only [Bank.transfer, hp, Bank.saveTransaction]
      cases b.accounts srcId <;> cases b.accounts destId <;> exact hs'

lemma nonneg_applyOp {b : Bank} {op : Op}
    (hs : NonNeg b.accounts) (hop : op.createNonNeg) :
    NonNeg ((applyOp b op).accounts) := by
  cases op with
  | createAccount id oid bal =>
    exact nonneg_setAccount hs hop
  | deposit id amt =>
    simp only [applyOp]
    split
    · exact hs
    next a hid =>
      split
      next a' hd =>
        obtain ⟨hpos, rfl⟩ := deposit_ok_iff.mp hd
        have h0 : 0 ≤ a.balance := hs id a hid
        exact nonneg_setAccount hs (by simp only; linarith)
      next e hd => exact hs
  | withdraw id amt =>
    simp only [applyOp]
    split
    · exact hs
    next a hid =>
      split
      next a' hw =>
        obtain ⟨-, hba, rfl⟩ := withdraw_ok_iff.mp hw
        exact nonneg_setAccount hs (by simp only; linarith)
      next e hw => exact hs
  | processTx tx =>
    simp only [applyOp]
    cases hp : tx.process b.accounts with
    | error e => exact hs
    | ok r =>
      obtain ⟨succ, tx', s'⟩ := r
      exact nonneg_process hs hp
  | transferOp s d amt => exact nonneg_transfer hs

lemma nonneg_foldl {b : Bank} {ops : List Op}
    (hs : NonNeg b.accounts) (hops : ∀ op ∈ ops, op.createNonNeg) :
    NonNeg ((ops.foldl applyOp b).accounts) := by
  induction ops generalizing b with
  | nil => exact hs
  | cons op rest ih =>
    simp only [List.foldl_cons]
    exact ih (nonneg_applyOp hs (hops op (List.mem_cons_self op rest)))
      (fun o ho => hops o (List.mem_cons_of_mem op ho))


/-- C1, as frozen, is refuted by account creation: the public interface
includes `Account.__init__`, which performs no validation, so the one-step
operation sequence `[createAccount 1 1 (-5)]` commits an account whose
balance is `-5 < 0`. -/
theorem c1_counterexample :
    ((([Op.createAccount 1 1 (-5)]).foldl applyOp Bank.init).accounts 1).map
        Account.balance = some (-5) ∧ ((-5 : ℚ) < 0) :=
  ⟨rfl, by norm_num⟩

/-- C1 (amended): for every bank state whose accounts all have non-negative
balances and every sequence of public-interface operations whose account
creations carry non-negative initial balances, every account balance is
non-negative after every committed operation (`NonNeg` holds of every
prefix, hence of the full fold); moreover a withdrawal that would drive a
(non-negative) balance negative is rejected with `InsufficientFunds`
before any mutation (the operation returns only the error, mutating
nothing). -/
theorem c1_balance_never_negative (b : Bank) (ops : List Op)
    (hb : NonNeg b.accounts) (hops : ∀ op ∈ ops, op.createNonNeg) :
    NonNeg ((ops.foldl applyOp b).accounts) ∧
    (∀ (a : Account) (amt : ℚ), 0 ≤ a.balance → a.balance < amt →
      a.withdraw amt = .error .insufficientFunds) := by
  refine ⟨nonneg_foldl hb hops, ?_⟩
  intro a amt h0 hlt
  unfold Account.withdraw
  rw [if_neg (not_le.mpr (lt_of_le_of_lt h0 hlt)), if_pos hlt]

/-- Concrete operation sequence exercising every public operation. -/
def c1WitnessOps : List Op :=
  [.createAccount 1 1 500, .createAccount 2 2 300, .deposit 1 250,
   .withdraw 1 600, .transferOp 1 2 50, .transferOp 1 1 20,
   .processTx (mkTransaction 7 (some 1) (some 2) 100)]

theorem c1_balance_never_negative_witness :
    NonNeg ((c1WitnessOps.foldl applyOp Bank.init).accounts) ∧
    (∀ (a : Account) (amt : ℚ), 0 ≤ a.balance → a.balance < amt →
      a.withdraw amt = .error .insufficientFunds) :=
  c1_balance_never_negative Bank.init c1WitnessOps
    (fun _ _ h => Option.noConfusion h) (by decide)

/-- C9: `Account.__init__` performs no validation of the initial balance —
for every numeric initial balance `bal` (including negative ones, witness
`-7`), construction succeeds and the resulting balance equals `bal`, so
the non-negativity invariant is not established at creation time. -/
theorem c9_constructor_no_validation :
    (∀ (id oid : Nat) (bal : ℚ), (mkAccount id oid bal).balance = bal) ∧
    (mkAccount 2 1 (-7)).balance < 0 :=
  ⟨fun _ _ _ => rfl, by norm_num [mkAccount]⟩

/-- C7: for a transaction whose source reference resolves to account `sa`,
`validate()` returns `True` iff `amount > 0` and `sa.balance >= amount`,
and returns `False` iff that conjunction fails.  In the embedding
`validate` takes the heap read-only and returns only the boolean, so it
mutates neither account state nor the transaction's status, and repeated
calls without intervening mutation are applications of the same function
to the same arguments. -/
theorem c7_validate_iff (s : Accounts) (tx : Transaction) (sid : Nat)
    (sa : Account) (hsrc : tx.source = some sid) (hsa : s sid = some sa) :
    (tx.validate s = .ok true ↔ 0 < tx.amount ∧ sa.balance ≥ tx.amount) ∧
    (tx.validate s = .ok false ↔ ¬(0 < tx.amount ∧ sa.balance ≥ tx.amount)) := by
  by_cases hamt : tx.amount ≤ 0
  · simp only [Transaction.validate, if_pos hamt, Except.ok.injEq]
    constructor
    · constructor
      · intro h
        exact absurd h (by simp)
      · rintro ⟨h1, -⟩
        exact absurd h1 (not_lt.mpr hamt)
    · constructor
      · rintro - ⟨h1, -⟩
        exact absurd h1 (not_lt.mpr hamt)
      · exact fun _ => trivial
  · have h1 : 0 < tx.amount := not_le.mp hamt
    simp only [Transaction.validate, if_neg hamt, hsrc, deref_some hsa,
      Except.ok.injEq, decide_eq_true_eq, decide_eq_false_iff_not]
    constructor
    · constructor
      · intro h
        exact ⟨h1, h⟩
      · rintro ⟨-, h⟩
        exact h
    · constructor
      · intro h hc
        exact h hc.2
      · intro h hc
        exact h ⟨h1, hc⟩

theorem c7_validate_iff_witness :
    ((mkTransaction 1 (some 101) (some 201) 120).validate demoBank.accounts
        = .ok true ↔
      0 < (mkTransaction 1 (some 101) (some 201) 120).amount ∧
      (mkAccount 101 1 500).balance ≥
        (mkTransaction 1 (some 101) (some 201) 120).amount) ∧
    ((mkTransaction 1 (some 101) (some 201) 120).validate demoBank.accounts
        = .ok false ↔
      ¬(0 < (mkTransaction 1 (some 101) (some 201) 120).amount ∧
        (mkAccount 101 1 500).balance ≥
          (mkTransaction 1 (some 101) (some 201) 120).amount)) :=
  c7_validate_iff demoBank.accounts (mkTransaction 1 (some 101) (some 201) 120)
    101 (mkAccount 101 1 500) rfl rfl

/-- C2 is refuted by the code: `transfer(101, 999, 120)` on the seeded
bank reaches `process()` with a resolvable source and a `None`
destination.  `validate()` passes (it only reads the source), the
withdrawal succeeds, then `destination.deposit` raises `AttributeError`,
which the broad `except` converts to status `FAILED` — with the
withdrawal already applied and never rolled back: `process()` ends
`FAILED` yet the source balance has dropped from 500 to 380. -/
theorem c2_failed_partial_application :
    (demoBank.accounts 101).map Account.balance = some 500 ∧
    ((mkTransaction 1 (some 101) none 120).process demoBank.accounts).toOption.map
        (fun r => (r.1, r.2.1.status, (r.2.2 101).map Account.balance))
      = some (false, .FAILED, some 380) ∧
    ((demoBank.transfer 101 999 120).2.accounts 101).map Account.balance
      = some 380 := by
  refine ⟨rfl, ?_, ?_⟩ <;>
    norm_num [Transaction.process, Transaction.validate, heapWithdraw,
      heapDeposit, heapAddTx, deref, setAccount, demoBank, Bank.init,
      Bank.saveAccount, Bank.saveTransaction, Bank.transfer, mkTransferTx,
      mkAccount, mkTransaction, Account.withdraw, Account.deposit,
      Account.add_transaction, Except.toOption]

/-- C4 is refuted by the code (the spec itself flags this as the
double-processing gap): processing `Transaction(1, acct 101, acct 201,
100)` once completes and leaves the source at 400; calling `process()`
again on the now-`COMPLETED` transaction is neither rejected nor a no-op —
validation passes again and the mutation is re-applied, leaving the
source at 300. -/
theorem c4_double_process_reapplies :
    ((mkTransaction 1 (some 101) (some 201) 100).process demoBank.accounts).toOption.map
        (fun r => (r.2.1.status, (r.2.2 101).map Account.balance,
          (Transaction.process r.2.2 r.2.1).toOption.map
            (fun r2 => (r2.1, r2.2.1.status, (r2.2.2 101).map Account.balance))))
      = some (.COMPLETED, some 400, some (true, .COMPLETED, some 300)) := by
  norm_num [Transaction.process, Transaction.validate, heapWithdraw,
    heapDeposit, heapAddTx, deref, setAccount, demoBank, Bank.init,
    Bank.saveAccount, mkAccount, mkTransaction, Account.withdraw,
    Account.deposit, Account.add_transaction, Except.toOption]

/-- C5 is refuted by the code: `transfer(999, 201, 50)` with unknown
source id 999 *does* construct a `Transaction` (with a `None` source
reference, consuming transaction id 1) and then raises an untyped
`AttributeError` out of `validate()` inside `process()` — there is no
`AccountNotFound` error in the code.  The remaining parts of the claim do
hold at this input: the transaction is not persisted and no balance
changes. -/
theorem c5_unknown_source_behavior :
    mkTransferTx demoBank 999 201 50 = mkTransaction 1 none (some 201) 50 ∧
    (demoBank.transfer 999 201 50).1 = .error .attributeError ∧
    (demoBank.transfer 999 201 50).2.nextTxId = 2 ∧
    (demoBank.transfer 999 201 50).2.transactions 1 = none ∧
    ((demoBank.transfer 999 201 50).2.accounts 101).map Account.balance
      = some 500 ∧
    ((demoBank.transfer 999 201 50).2.accounts 201).map Account.balance
      = some 300 :=
  ⟨rfl, rfl, rfl, rfl, rfl, rfl⟩


lemma validate_nonpos {s : Accounts} {tx : Transaction} (h : tx.amount ≤ 0) :
    tx.validate s = .ok false := by
  simp only [Transaction.validate, if_pos h]

lemma validate_true {s : Accounts} {tx : Transaction} {sid : Nat} {sa : Account}
    (hsrc : tx.source = some sid) (hsa : s sid = some sa)
    (h1 : 0 < tx.amount) (h2 : tx.amount ≤ sa.balance) :
    tx.validate s = .ok true := by
  simp only [Transaction.validate, if_neg (not_le.mpr h1), hsrc, deref_some hsa,
    decide_eq_true (show sa.balance ≥ tx.amount from h2)]

lemma validate_false_insufficient {s : Accounts} {tx : Transaction} {sid : Nat}
    {sa : Account} (hsrc : tx.source = some sid) (hsa : s sid = some sa)
    (h1 : 0 < tx.amount) (h2 : sa.balance < tx.amount) :
    tx.validate s = .ok false := by
  simp only [Transaction.validate, if_neg (not_le.mpr h1), hsrc, deref_some hsa,
    decide_eq_false (show ¬ sa.balance ≥ tx.amount from not_le.mpr h2)]

lemma heapWithdraw_some {s : Accounts} {sid : Nat} {sa a' : Account} {amt : ℚ}
    (hsa : s sid = some sa) (hw : sa.withdraw amt = .ok a') :
    heapWithdraw s (some sid) amt = .ok (setAccount s sid a') := by
  simp only [heapWithdraw, deref_some hsa, hw]

lemma heapDeposit_some {s : Accounts} {sid : Nat} {sa a' : Account} {amt : ℚ}
    (hsa : s sid = some sa) (hd : sa.deposit amt = .ok a') :
    heapDeposit s (some sid) amt = .ok (setAccount s sid a') := by
  simp only [heapDeposit, deref_some hsa, hd]

lemma heapDeposit_none {s : Accounts} {amt : ℚ} :
    heapDeposit s none amt = .error .attributeError := rfl

lemma heapAddTx_some {s : Accounts} {sid : Nat} {sa : Account} {n : Nat}
    (hsa : s sid = some sa) :
    heapAddTx s (some sid) n = .ok (setAccount s sid (sa.add_transaction n)) := by
  simp only [heapAddTx, deref_some hsa]

lemma process_ok_false {s : Accounts} {tx : Transaction}
    (hv : tx.validate s = .ok false) :
    tx.process s = .ok (false, { tx with status := .FAILED }, s) := by
  simp only [Transaction.process, hv]

lemma process_dfail {s s1 : Accounts} {tx : Transaction} {e : Err}
    (hv : tx.validate s = .ok true)
    (hw : heapWithdraw s tx.source tx.amount = .ok s1)
    (hd : heapDeposit s1 tx.destination tx.amount = .error e) :
    tx.process s = .ok (false, { tx with status := .FAILED }, s1) := by
  simp only [Transaction.process, hv, hw, hd]

lemma process_complete_of {s s1 s2 s3 s4 : Accounts} {tx : Transaction}
    (hv : tx.validate s = .ok true)
    (hw : heapWithdraw s tx.source tx.amount = .ok s1)
    (hd : heapDeposit s1 tx.destination tx.amount = .ok s2)
    (h3 : heapAddTx s2 tx.source tx.txId = .ok s3)
    (h4 : heapAddTx s3 tx.destination tx.txId = .ok s4) :
    tx.process s = .ok (true, { tx with status := .COMPLETED }, s4) := by
  simp only [Transaction.process, hv, hw, hd, h3, h4]

/-- The fully-resolved successful run of `process` between two distinct
accounts: the four-step heap evolution, spelled out. -/
lemma process_complete_ne {s : Accounts} {tx : Transaction}
    {srcId destId : Nat} {sa da : Account}
    (hsrc : tx.source = some srcId) (hdest : tx.destination = some destId)
    (hne : srcId ≠ destId) (hsa : s srcId = some sa) (hda : s destId = some da)
    (h1 : 0 < tx.amount) (h2 : tx.amount ≤ sa.balance) :
    tx.process s = .ok (true, { tx with status := .COMPLETED },
      setAccount (setAccount (setAccount
        (setAccount s srcId { sa with balance := sa.balance - tx.amount })
        destId { da with balance := da.balance + tx.amount })
        srcId ({ sa with balance := sa.balance - tx.amount }.add_transaction tx.txId))
        destId ({ da with balance := da.balance + tx.amount }.add_transaction tx.txId)) := by
  have hv := validate_true hsrc hsa h1 h2
  have hw : heapWithdraw s tx.source tx.amount
      = .ok (setAccount s srcId { sa with balance := sa.balance - tx.amount }) := by
    rw [hsrc]
    exact heapWithdraw_some hsa (withdraw_ok h1 h2)
  have hs1d : setAccount s srcId { sa with balance := sa.balance - tx.amount } destId
      = some da := by
    rw [setAccount_ne _ _ _ _ (Ne.symm hne)]
    exact hda
  have hd : heapDeposit
      (setAccount s srcId { sa with balance := sa.balance - tx.amount })
      tx.destination tx.amount
      = .ok (setAccount (setAccount s srcId { sa with balance := sa.balance - tx.amount })
          destId { da with balance := da.balance + tx.amount }) := by
    rw [hdest]
    exact heapDeposit_some hs1d (deposit_ok h1)
  have hs2s : setAccount (setAccount s srcId { sa with balance := sa.balance - tx.amount })
      destId { da with balance := da.balance + tx.amount } srcId
      = some { sa with balance := sa.balance - tx.amount } := by
    rw [setAccount_ne _ _ _ _ hne]
    exact setAccount_self _ _ _
  have h3 : heapAddTx (setAccount (setAccount s srcId { sa with balance := sa.balance - tx.amount })
      destId { da with balance := da.balance + tx.amount }) tx.source tx.txId
      = .ok (setAccount (setAccount (setAccount s srcId { sa with balance := sa.balance - tx.amount })
          destId { da with balance := da.balance + tx.amount })
          srcId ({ sa with balance := sa.balance - tx.amount }.add_transaction tx.txId)) := by
    rw [hsrc]
    exact heapAddTx_some hs2s
  have hs3d : setAccount (setAccount (setAccount s srcId { sa with balance := sa.balance - tx.amount })
      destId { da with balance := da.balance + tx.amount })
      srcId ({ sa with balance := sa.balance - tx.amount }.add_transaction tx.txId) destId
      = some { da with balance := da.balance + tx.amount } := by
    rw [setAccount_ne _ _ _ _ (Ne.symm hne)]
    exact setAccount_self _ _ _
  have h4 : heapAddTx (setAccount (setAccount (setAccount s srcId { sa with balance := sa.balance - tx.amount })
      destId { da with balance := da.balance + tx.amount })
      srcId ({ sa with balance := sa.balance - tx.amount }.add_transaction tx.txId))
      tx.destination tx.txId
      = .ok (setAccount (setAccount (setAccount
          (setAccount s srcId { sa with balance := sa.balance - tx.amount })
          destId { da with balance := da.balance + tx.amount })
          srcId ({ sa with balance := sa.balance - tx.amount }.add_transaction tx.txId))
          destId ({ da with balance := da.balance + tx.amount }.add_transaction tx.txId)) := by
    rw [hdest]
    exact heapAddTx_some hs3d
  exact process_complete_of hv hw hd h3 h4

/-- The fully-resolved successful run of `process` when source and
destination are the same account object (self-transfer): the deposit sees
the already-withdrawn balance, and the history is appended twice. -/
lemma process_complete_self {s : Accounts} {tx : Transaction}
    {aid : Nat} {a : Account}
    (hsrc : tx.source = some aid) (hdest : tx.destination = some aid)
    (hsa : s aid = some a) (h1 : 0 < tx.amount) (h2 : tx.amount ≤ a.balance) :
    tx.process s = .ok (true, { tx with status := .COMPLETED },
      setAccount (setAccount (setAccount
        (setAccount s aid { a with balance := a.balance - tx.amount })
        aid { a with balance := a.balance - tx.amount + tx.amount })
        aid ({ a with balance := a.balance - tx.amount + tx.amount }.add_transaction tx.txId))
        aid (({ a with balance := a.balance - tx.amount + tx.amount }.add_transaction tx.txId).add_transaction tx.txId)) := by
  have hv := validate_true hsrc hsa h1 h2
  have hw : heapWithdraw s tx.source tx.amount
      = .ok (setAccount s aid { a with balance := a.balance - tx.amount }) := by
    rw [hsrc]
    exact heapWithdraw_some hsa (withdraw_ok h1 h2)
  have hd : heapDeposit (setAccount s aid { a with balance := a.balance - tx.amount })
      tx.destination tx.amount
      = .ok (setAccount (setAccount s aid { a with balance := a.balance - tx.amount })
          aid { a with balance := a.balance - tx.amount + tx.amount }) := by
    rw [hdest]
    exact heapDeposit_some (setAccount_self _ _ _) (deposit_ok h1)
  have h3 : heapAddTx (setAccount (setAccount s aid { a with balance := a.balance - tx.amount })
      aid { a with balance := a.balance - tx.amount + tx.amount }) tx.source tx.txId
      = .ok (setAccount (setAccount (setAccount s aid { a with balance := a.balance - tx.amount })
          aid { a with balance := a.balance - tx.amount + tx.amount })
          aid ({ a with balance := a.balance - tx.amount + tx.amount }.add_transaction tx.txId)) := by
    rw [hsrc]
    exact heapAddTx_some (setAccount_self _ _ _)
  have h4 : heapAddTx (setAccount (setAccount (setAccount s aid { a with balance := a.balance - tx.amount })
      aid { a with balance := a.balance - tx.amount + tx.amount })
      aid ({ a with balance := a.balance - tx.amount + tx.amount }.add_transaction tx.txId))
      tx.destination tx.txId
      = .ok (setAccount (setAccount (setAccount
          (setAccount s aid { a with balance := a.balance - tx.amount })
          aid { a with balance := a.balance - tx.amount + tx.amount })
          aid ({ a with balance := a.balance - tx.amount + tx.amount }.add_transaction tx.txId))
          aid (({ a with balance := a.balance - tx.amount + tx.amount }.add_transaction tx.txId).add_transaction tx.txId)) := by
    rw [hdest]
    exact heapAddTx_some (setAccount_self _ _ _)
  exact process_complete_of hv hw hd h3 h4


lemma transfer_of_process_error {b : Bank} {srcId destId : Nat} {amt : ℚ} {e : Err}
    (hp : (mkTransferTx b srcId destId amt).process b.accounts = .error e) :
    b.transfer srcId destId amt = (.error e, { b with nextTxId := b.nextTxId + 1 }) := by
  simp only [Bank.transfer, hp]

lemma transfer_of_process_failed {b : Bank} {srcId destId : Nat} {amt : ℚ}
    {sa : Account} {tx : Transaction} {accts : Accounts}
    (hsa : b.accounts srcId = some sa)
    (hp : (mkTransferTx b srcId destId amt).process b.accounts
      = .ok (false, tx, accts)) :
    b.transfer srcId destId amt =
      (.ok (tx, [(sa.ownerId, .transferFailed amt)]),
       { accounts := accts,
         transactions := fun i => if i = tx.txId then some tx else b.transactions i,
         nextTxId := b.nextTxId + 1 }) := by
  simp only [Bank.transfer, hp, hsa, Bank.saveTransaction, Bool.false_eq_true,
    if_false]

lemma transfer_of_process_ok {b : Bank} {srcId destId : Nat} {amt : ℚ}
    {sa da : Account} {tx : Transaction} {accts : Accounts}
    (hsa : b.accounts srcId = some sa) (hda : b.accounts destId = some da)
    (hp : (mkTransferTx b srcId destId amt).process b.accounts
      = .ok (true, tx, accts)) :
    b.transfer srcId destId amt =
      (.ok (tx, [(sa.ownerId, .transferSucceeded amt da.accountId),
                 (da.ownerId, .receivedFunds amt sa.accountId)]),
       { accounts := accts,
         transactions := fun i => if i = tx.txId then some tx else b.transactions i,
         nextTxId := b.nextTxId + 1 }) := by
  simp only [Bank.transfer, hp, hsa, hda, Bank.saveTransaction, if_true]


/-- C3: a `process()` run between two distinct resolvable accounts that
returns success (`True`, status `COMPLETED`) decreases the source balance
by exactly `amount`, increases the destination balance by exactly
`amount`, and preserves the sum of the two balances. -/
theorem c3_completed_conservation (s : Accounts) (tx : Transaction)
    (srcId destId : Nat) (sa da : Account)
    (hsrc : tx.source = some srcId) (hdest : tx.destination = some destId)
    (hne : srcId ≠ destId) (hsa : s srcId = some sa) (hda : s destId = some da)
    (hamt : 0 < tx.amount)
    (hp : (tx.process s).toOption.map (fun r => r.1) = some true) :
    ∃ tx' s', tx.process s = .ok (true, tx', s') ∧ tx'.status = .COMPLETED ∧
      (s' srcId).map Account.balance = some (sa.balance - tx.amount) ∧
      (s' destId).map Account.balance = some (da.balance + tx.amount) ∧
      (sa.balance - tx.amount) + (da.balance + tx.amount)
        = sa.balance + da.balance := by
  by_cases hbal : tx.amount ≤ sa.balance
  · refine ⟨_, _, process_complete_ne hsrc hdest hne hsa hda hamt hbal, rfl,
      ?_, ?_, by ring⟩
    · rw [setAccount_ne _ _ _ _ hne, setAccount_self]
      rfl
    · rw [setAccount_self]
      rfl
  · exfalso
    rw [process_ok_false
      (validate_false_insufficient hsrc hsa hamt (not_le.mp hbal))] at hp
    simp [Except.toOption] at hp

theorem c3_completed_conservation_witness :
    ∃ tx' s',
      (mkTransaction 1 (some 101) (some 201) 120).process demoBank.accounts
        = .ok (true, tx', s') ∧
      tx'.status = .COMPLETED ∧
      (s' 101).map Account.balance
        = some ((mkAccount 101 1 500).balance
            - (mkTransaction 1 (some 101) (some 201) 120).amount) ∧
      (s' 201).map Account.balance
        = some ((mkAccount 201 2 300).balance
            + (mkTransaction 1 (some 101) (some 201) 120).amount) ∧
      ((mkAccount 101 1 500).balance
          - (mkTransaction 1 (some 101) (some 201) 120).amount)
        + ((mkAccount 201 2 300).balance
          + (mkTransaction 1 (some 101) (some 201) 120).amount)
        = (mkAccount 101 1 500).balance + (mkAccount 201 2 300).balance :=
  c3_completed_conservation demoBank.accounts
    (mkTransaction 1 (some 101) (some 201) 120) 101 201
    (mkAccount 101 1 500) (mkAccount 201 2 300) rfl rfl (by norm_num) rfl rfl
    (by norm_num [mkTransaction])
    (by norm_num [Transaction.process, Transaction.validate, heapWithdraw,
      heapDeposit, heapAddTx, deref, setAccount, demoBank, Bank.init,
      Bank.saveAccount, mkAccount, mkTransaction, Account.withdraw,
      Account.deposit, Account.add_transaction, Except.toOption])

/-- C10: a self-transfer `transfer(A.id, A.id, amt)` with `0 < amt ≤
balance` completes: the withdraw and deposit hit the same stored object
and cancel, the balance is unchanged, and the transaction is appended
twice to the single account's history (once as source, once as
destination). -/
theorem c10_self_transfer (b : Bank) (aid : Nat) (a : Account) (amt : ℚ)
    (ha : b.accounts aid = some a) (h0 : 0 < amt) (hba : amt ≤ a.balance) :
    ∃ tx msgs b', b.transfer aid aid amt = (.ok (tx, msgs), b') ∧
      tx.status = .COMPLETED ∧ tx.txId = b.nextTxId ∧
      (b'.accounts aid).map Account.balance = some a.balance ∧
      (b'.accounts aid).map Account.txs
        = some (a.txs ++ [b.nextTxId, b.nextTxId]) := by
  have hsrc : (mkTransferTx b aid aid amt).source = some aid := by
    simp [mkTransferTx, mkTransaction, ha]
  have hdest : (mkTransferTx b aid aid amt).destination = some aid := by
    simp [mkTransferTx, mkTransaction, ha]
  have hp := process_complete_self hsrc hdest ha h0 hba
  refine ⟨_, _, _, transfer_of_process_ok ha ha hp, rfl, rfl, ?_, ?_⟩
  · dsimp only
    rw [setAccount_self]
    show some (a.balance - amt + amt) = some a.balance
    rw [sub_add_cancel]
  · dsimp only
    rw [setAccount_self]
    show some (a.txs ++ [b.nextTxId] ++ [b.nextTxId])
      = some (a.txs ++ [b.nextTxId, b.nextTxId])
    simp [List.append_assoc]

theorem c10_self_transfer_witness :
    ∃ tx msgs b', demoBank.transfer 101 101 50 = (.ok (tx, msgs), b') ∧
      tx.status = .COMPLETED ∧ tx.txId = demoBank.nextTxId ∧
      (b'.accounts 101).map Account.balance
        = some (mkAccount 101 1 500).balance ∧
      (b'.accounts 101).map Account.txs
        = some ((mkAccount 101 1 500).txs
            ++ [demoBank.nextTxId, demoBank.nextTxId]) :=
  c10_self_transfer demoBank 101 (mkAccount 101 1 500) 50 rfl (by norm_num)
    (by norm_num [mkAccount])


/-- C8: `transfer` on two resolvable accounts always returns a transaction
(never raises), and the notifications it emits are exactly: on success,
first to the source owner, then to the destination owner; on failure, one
notification to the source owner only.  The returned status is always
terminal, so the two cases are exhaustive. -/
theorem c8_notifications (b : Bank) (srcId destId : Nat) (sa da : Account)
    (amt : ℚ) (hsa : b.accounts srcId = some sa)
    (hda : b.accounts destId = some da) :
    ∃ tx msgs b', b.transfer srcId destId amt = (.ok (tx, msgs), b') ∧
      (tx.status = .COMPLETED ∨ tx.status = .FAILED) ∧
      (tx.status = .COMPLETED →
        msgs = [(sa.ownerId, .transferSucceeded amt da.accountId),
                (da.ownerId, .receivedFunds amt sa.accountId)]) ∧
      (tx.status = .FAILED → msgs = [(sa.ownerId, .transferFailed amt)]) := by
  have hsrc : (mkTransferTx b srcId destId amt).source = some srcId := by
    simp [mkTransferTx, mkTransaction, hsa]
  have hdest : (mkTransferTx b srcId destId amt).destination = some destId := by
    simp [mkTransferTx, mkTransaction, hda]
  by_cases h0 : 0 < amt
  · by_cases hbal : amt ≤ sa.balance
    · by_cases hsd : srcId = destId
      · subst hsd
        rw [hsa] at hda
        injection hda with hda
        subst hda
        have hp := process_complete_self hsrc hdest hsa h0 hbal
        refine ⟨_, _, _, transfer_of_process_ok hsa hsa hp, Or.inl rfl,
          fun _ => rfl, ?_⟩
        intro hc
        exact absurd hc (by simp)
      · have hp := process_complete_ne hsrc hdest hsd hsa hda h0 hbal
        refine ⟨_, _, _, transfer_of_process_ok hsa hda hp, Or.inl rfl,
          fun _ => rfl, ?_⟩
        intro hc
        exact absurd hc (by simp)
    · have hv := validate_false_insufficient hsrc hsa h0 (not_le.mp hbal)
      have hp := process_ok_false hv
      refine ⟨_, _, _, transfer_of_process_failed hsa hp, Or.inr rfl, ?_,
        fun _ => rfl⟩
      intro hc
      exact absurd hc (by simp)
  · have hv : (mkTransferTx b srcId destId amt).validate b.accounts
        = .ok false := validate_nonpos (not_lt.mp h0)
    have hp := process_ok_false hv
    refine ⟨_, _, _, transfer_of_process_failed hsa hp, Or.inr rfl, ?_,
      fun _ => rfl⟩
    intro hc
    exact absurd hc (by simp)

theorem c8_notifications_witness :
    ∃ tx msgs b', demoBank.transfer 101 201 120 = (.ok (tx, msgs), b') ∧
      (tx.status = .COMPLETED ∨ tx.status = .FAILED) ∧
      (tx.status = .COMPLETED →
        msgs = [(1, .transferSucceeded 120 201), (2, .receivedFunds 120 101)]) ∧
      (tx.status = .FAILED → msgs = [(1, .transferFailed 120)]) :=
  c8_notifications demoBank 101 201 (mkAccount 101 1 500)
    (mkAccount 201 2 300) 120 rfl rfl

/-- One `transfer` call per request, collecting the `tx_id` of the
transaction each call constructs (line 63 of `services.py`) — an id is
consumed by every call, whatever the transfer's outcome. -/
def runTransfers (b : Bank) : List (Nat × Nat × ℚ) → List Nat × Bank
  | [] => ([], b)
  | r :: rs =>
    let id := (mkTransferTx b r.1 r.2.1 r.2.2).txId
    let next := runTransfers (b.transfer r.1 r.2.1 r.2.2).2 rs
    (id :: next.1, next.2)

lemma transfer_nextTxId (b : Bank) (srcId destId : Nat) (amt : ℚ) :
    ((b.transfer srcId destId amt).2).nextTxId = b.nextTxId + 1 := by
  cases hp : (mkTransferTx b srcId destId amt).process b.accounts with
  | error e => simp only [Bank.transfer, hp]
  | ok r =>
    obtain ⟨succ, tx, accts⟩ := r
    cases succ with
    | false =>
      simp only [Bank.transfer, hp, Bank.saveTransaction, Bool.false_eq_true,
        if_false]
      cases b.accounts srcId <;> rfl
    | true =>
      simp only [Bank.transfer, hp, Bank.saveTransaction, if_true]
      cases b.accounts srcId <;> cases b.accounts destId <;> rfl

lemma runTransfers_ids (b : Bank) (reqs : List (Nat × Nat × ℚ)) :
    (runTransfers b reqs).1 = List.range' b.nextTxId reqs.length := by
  induction reqs generalizing b with
  | nil => rfl
  | cons r rs ih =>
    simp only [runTransfers, List.length_cons, List.range'_succ]
    rw [ih, transfer_nextTxId]
    rfl

/-- C6: on a fresh orchestrator (`_next_tx_id = 1`), the transaction ids
assigned across any sequence of `transfer` calls are exactly
`1, 2, …, n`: pairwise distinct, strictly increasing in call order, and
starting at 1; every call consumes an id regardless of outcome (the id
list has one entry per request). -/
theorem c6_transaction_ids (b : Bank) (reqs : List (Nat × Nat × ℚ))
    (hb : b.nextTxId = 1) :
    (runTransfers b reqs).1 = List.range' 1 reqs.length ∧
    (runTransfers b reqs).1.Pairwise (· < ·) ∧
    (runTransfers b reqs).1.length = reqs.length ∧
    (reqs ≠ [] → (runTransfers b reqs).1.head? = some 1) := by
  have h := runTransfers_ids b reqs
  rw [hb] at h
  refine ⟨h, ?_, ?_, ?_⟩
  · rw [h]
    exact List.pairwise_lt_range' 1 reqs.length
  · rw [h, List.length_range']
  · intro hne
    rw [h, List.head?_range']
    rw [if_neg (fun hl => hne (List.length_eq_zero.mp hl))]

theorem c6_transaction_ids_witness :
    (runTransfers demoBank [(101, 201, 120), (102, 201, 500), (999, 201, 50),
        (101, 101, 30)]).1 = List.range' 1 4 ∧
    (runTransfers demoBank [(101, 201, 120), (102, 201, 500), (999, 201, 50),
        (101, 101, 30)]).1.Pairwise (· < ·) ∧
    (runTransfers demoBank [(101, 201, 120), (102, 201, 500), (999, 201, 50),
        (101, 101, 30)]).1.length = 4 ∧
    ([((101 : Nat), (201 : Nat), (120 : ℚ)), (102, 201, 500), (999, 201, 50),
        (101, 101, 30)] ≠ [] →
      (runTransfers demoBank [(101, 201, 120), (102, 201, 500), (999, 201, 50),
        (101, 101, 30)]).1.head? = some 1) :=
  c6_transaction_ids demoBank
    [(101, 201, 120), (102, 201, 500), (999, 201, 50), (101, 101, 30)] rfl

end Banking
